import Mathlib

/-!
Verification of the simple-todo-list database scripts.

The repository holds two Python scripts:
* `src/database/init_db.py` — a straight-line SQLite bootstrap: create the
  `app_info`, `users` and `todos` tables (CREATE TABLE IF NOT EXISTS), the
  `idx_todos_is_completed` index (CREATE INDEX IF NOT EXISTS), the
  `todos_set_updated_at` trigger (guarded by a catalog query on
  `sqlite_master`), upsert four `app_info` rows (INSERT OR REPLACE) and seed
  four sample `todos` rows when the table is empty, then report statistics.
* `src/database/db_shell.py` — a single-statement shell: resolve the db file
  from the `DB_FILE` environment variable (default `/data/todos.db`), create
  the parent directory, connect (creating the file when missing), execute one
  statement, print each result row tab-separated, and on a SQLite error print
  a diagnostic to stderr and exit 1.

The embedding below models the store as a structured state: the catalog
(table / index / trigger names) plus the rows of the three tables, with the
AUTOINCREMENT sequence counters made explicit.  Timestamps
(`CURRENT_TIMESTAMP`) are modelled as an abstract `now : Nat` passed to a run.
-/

/-- A row of the `todos` table (init_db.py lines 82-91). -/
structure TodoRow where
  id : Nat
  title : String
  description : Option String
  is_completed : Nat
  created_at : Nat
  updated_at : Option Nat
deriving DecidableEq, Repr

/-- A row of the `app_info` table (init_db.py lines 62-69). -/
structure AppInfoRow where
  id : Nat
  key : String
  value : Option String
  created_at : Nat
deriving DecidableEq, Repr

/-- A row of the `users` table (init_db.py lines 72-79). -/
structure UserRow where
  id : Nat
  username : String
  email : String
  created_at : Nat
deriving DecidableEq, Repr

/-- The SQLite store: catalog entries (user tables, indexes, triggers) and the
rows of the three tables, with the AUTOINCREMENT sequence counter of each
table carried explicitly (SQLite never reuses an AUTOINCREMENT id). -/
structure DBState where
  tables : List String
  indexes : List String
  triggers : List String
  appInfo : List AppInfoRow
  users : List UserRow
  todos : List TodoRow
  appInfoSeq : Nat
  usersSeq : Nat
  todosSeq : Nat
deriving DecidableEq, Repr

/-- A fresh store: the state `sqlite3.connect` yields for a new file. -/
def emptyDB : DBState :=
  { tables := [], indexes := [], triggers := [],
    appInfo := [], users := [], todos := [],
    appInfoSeq := 0, usersSeq := 0, todosSeq := 0 }

/-- `CREATE TABLE IF NOT EXISTS app_info` (init_db.py lines 62-69). -/
def createAppInfoTable (db : DBState) : DBState :=
  if "app_info" ∈ db.tables then db
  else { db with tables := db.tables ++ ["app_info"] }

/-- `CREATE TABLE IF NOT EXISTS users` (init_db.py lines 72-79). -/
def createUsersTable (db : DBState) : DBState :=
  if "users" ∈ db.tables then db
  else { db with tables := db.tables ++ ["users"] }

/-- `CREATE TABLE IF NOT EXISTS todos` (init_db.py lines 82-91). -/
def createTodosTable (db : DBState) : DBState :=
  if "todos" ∈ db.tables then db
  else { db with tables := db.tables ++ ["todos"] }

/-- `CREATE INDEX IF NOT EXISTS idx_todos_is_completed` (lines 94-97). -/
def createTodosIndex (db : DBState) : DBState :=
  if "idx_todos_is_completed" ∈ db.indexes then db
  else { db with indexes := db.indexes ++ ["idx_todos_is_completed"] }

/-- The catalog query of init_db.py lines 102-106: `SELECT name FROM
sqlite_master WHERE type = 'trigger' AND name = 'todos_set_updated_at'`,
collapsed to whether a row came back (`cursor.fetchone() is not None`). -/
def trigger_exists (db : DBState) : Bool :=
  "todos_set_updated_at" ∈ db.triggers

/-- The raw `CREATE TRIGGER todos_set_updated_at` statement (lines 109-118).
It carries no IF NOT EXISTS clause, so SQLite raises an error when a trigger
of that name already exists. -/
def createTriggerRaw (db : DBState) : Except String DBState :=
  if "todos_set_updated_at" ∈ db.triggers then
    Except.error "trigger todos_set_updated_at already exists"
  else
    Except.ok { db with triggers := db.triggers ++ ["todos_set_updated_at"] }

/-- The guarded trigger step of init_db.py lines 102-118 as the total state
transformer it amounts to: create the trigger only when the catalog query
found none. -/
def createTriggerStep (db : DBState) : DBState :=
  if trigger_exists db then db
  else { db with triggers := db.triggers ++ ["todos_set_updated_at"] }

/-- The guarded trigger step with the raw statement's fallibility kept
visible: exactly the source's `if not trigger_exists: cursor.execute(CREATE
TRIGGER ...)` (lines 108-118). -/
def triggerStepE (db : DBState) : Except String DBState :=
  if trigger_exists db then Except.ok db else createTriggerRaw db

/-- `INSERT OR REPLACE INTO app_info (key, value) VALUES (?, ?)`
(init_db.py lines 121-128).  SQLite deletes every row conflicting on the
UNIQUE `key` column and inserts a new row, which receives the next
AUTOINCREMENT id and a fresh `created_at` default. -/
def upsertAppInfo (now : Nat) (k v : String) (db : DBState) : DBState :=
  let newId := db.appInfoSeq + 1
  { db with
    appInfo := db.appInfo.filter (fun r => r.key != k) ++
      [{ id := newId, key := k, value := some v, created_at := now }],
    appInfoSeq := newId }

/-- The four sample todos of init_db.py lines 134-139. -/
def sample_todos : List (String × String × Nat) :=
  [("Set up project", "Initialize repository and basic structure", 1),
   ("Build backend", "Implement FastAPI endpoints for todos", 0),
   ("Create frontend", "Build React UI for managing tasks", 0),
   ("Write tests", "Add unit/integration tests", 0)]

/-- One `INSERT INTO todos (title, description, is_completed)` of the seeding
loop (lines 140-144): id from AUTOINCREMENT, `created_at` defaulted,
`updated_at` NULL. -/
def insertTodo (now : Nat) (t : String × String × Nat) (db : DBState) : DBState :=
  let newId := db.todosSeq + 1
  { db with
    todos := db.todos ++
      [{ id := newId, title := t.1, description := some t.2.1,
         is_completed := t.2.2, created_at := now, updated_at := none }],
    todosSeq := newId }

/-- The seeding step of init_db.py lines 130-144: `SELECT COUNT(*) FROM
todos`; when the count is zero, insert the four sample rows in order. -/
def seedTodos (now : Nat) (db : DBState) : DBState :=
  if db.todos.length = 0 then
    sample_todos.foldl (fun d t => insertTodo now t d) db
  else db

/-- The full statement sequence of init_db.py lines 55-147 (the part of the
script that touches the store), as one state transformer. -/
def initDB (now : Nat) (db : DBState) : DBState :=
  seedTodos now
    (upsertAppInfo now "description" ""
      (upsertAppInfo now "author" "John Doe"
        (upsertAppInfo now "version" "0.1.0"
          (upsertAppInfo now "project_name" "database"
            (createTriggerStep
              (createTodosIndex
                (createTodosTable
                  (createUsersTable
                    (createAppInfoTable db)))))))))

/-- The statistics printed at the end of the script. -/
structure DBStats where
  table_count : Nat
  record_count : Nat
  todo_total : Nat
  todo_completed : Nat
deriving DecidableEq, Repr

/-- The `name NOT LIKE 'sqlite_%'` filter of the table-count query, on the
character list of the name so that it evaluates inside the kernel. -/
def likeSqlitePct (n : String) : Bool :=
  "sqlite_".toList.isPrefixOf n.toList

/-- The verification queries of init_db.py lines 149-160: count the user
tables (`name NOT LIKE 'sqlite_%'`), the `app_info` rows, the `todos` rows
and the completed todos. -/
def getStats (db : DBState) : DBStats :=
  { table_count := (db.tables.filter (fun n => ! likeSqlitePct n)).length,
    record_count := db.appInfo.length,
    todo_total := db.todos.length,
    todo_completed := (db.todos.filter (fun r => r.is_completed == 1)).length }

/-- The observations claim C1 compares across runs: the catalog (tables,
indexes, triggers) and the row count of every table. -/
def dbObs (db : DBState) :
    List String × List String × List String × Nat × Nat × Nat :=
  (db.tables, db.indexes, db.triggers,
   db.appInfo.length, db.users.length, db.todos.length)

/-! ## The ad-hoc shell (`src/database/db_shell.py`) -/

/-- The SQL statements the shell is exercised with in this development.  Each
constructor is one concrete statement string; `execStmt` gives its semantics
against the store, as the embedded engine would. -/
inductive Stmt where
  | selectTitleCompleted : Stmt
  | selectCountTodos : Stmt
deriving DecidableEq, Repr

/-- Statement execution at the storage-engine boundary: the result is the new
store plus the fetched rows (each row a list of column strings, as
`str(col)` renders them), or a SQLite error message.  A SELECT from a table
absent from the catalog is the engine's `no such table` error. -/
def execStmt : Stmt → DBState → Except String (DBState × List (List String))
  | Stmt.selectTitleCompleted, db =>
      if "todos" ∈ db.tables then
        Except.ok (db,
          (db.todos.filter (fun r => r.is_completed == 1)).map (fun r => [r.title]))
      else Except.error "no such table: todos"
  | Stmt.selectCountTodos, db =>
      if "todos" ∈ db.tables then
        Except.ok (db, [[toString db.todos.length]])
      else Except.error "no such table: todos"

/-- db_shell.py line 25: `os.environ.get("DB_FILE", "/data/todos.db")`. -/
def resolveDbFile (env : Option String) : String :=
  env.getD "/data/todos.db"

/-- The slice of the filesystem the shell touches: whether the db file's
parent directory exists, and the db file's contents (`none` = file missing). -/
structure ShellFS where
  dirExists : Bool
  dbFile : Option DBState
deriving DecidableEq, Repr

/-- What one shell invocation leaves on stdout/stderr and as exit status. -/
structure ShellOutcome where
  stdoutLines : List String
  stderrMsg : Option String
  exitCode : Nat
deriving DecidableEq, Repr

/-- db_shell.py `main` (lines 25-44): ensure the parent directory exists
(`os.makedirs(..., exist_ok=True)`), connect — creating an empty database
when the file is missing — execute the one statement, commit, and
print each row with columns joined by tabs; on `sqlite3.Error` print
`SQLite error: ...` to stderr and exit 1. -/
def shellMain (fs : ShellFS) (stmt : Stmt) : ShellFS × ShellOutcome :=
  let fs1 : ShellFS := { fs with dirExists := true }
  let db0 : DBState := fs1.dbFile.getD emptyDB
  match execStmt stmt db0 with
  | Except.ok (db1, rows) =>
      ({ fs1 with dbFile := some db1 },
       { stdoutLines := rows.map (fun row => String.intercalate "\t" row),
         stderrMsg := none, exitCode := 0 })
  | Except.error e =>
      ({ fs1 with dbFile := some db0 },
       { stdoutLines := [], stderrMsg := some ("SQLite error: " ++ e),
         exitCode := 1 })

/-! ## The migration runner of the spec

The spec generalizes the straight-line script into a migration-runner core
(`run(steps, store) -> RunResult`).  No such runner, `MigrationStep`,
`RunResult` or `StorageError` type exists under `src/`; they are modelled
here from the spec's words. -/

/-- Modelled from the spec: `StorageError` — "any failure from the embedded
engine (I/O, constraint violation, corruption)", carried as its message. -/
abbrev StorageError := String

/-- Modelled from the spec: the `kind` attribute of a step. -/
inductive StepKind where
  | schema : StepKind
  | seed : StepKind
deriving DecidableEq, Repr

/-- Modelled from the spec: `MigrationStep` — "an ordered, named unit of
work" with a `name`, an `apply` operation against the store, and a `kind`. -/
structure MigrationStep where
  name : String
  kind : StepKind
  apply : DBState → Except StorageError DBState

/-- Modelled from the spec: `RunResult` — the aggregate outcome handed to the
reporter: the verification counts and "the first error encountered (if
any)". -/
structure RunResult where
  stats : DBStats
  error : Option StorageError
deriving DecidableEq, Repr

/-- Modelled from the spec: executing the steps strictly in sequence, each
step committing independently; on a `StorageError` the remaining steps are
aborted and the state reached so far is kept. -/
def applySteps : List MigrationStep → DBState → DBState × Option StorageError
  | [], db => (db, none)
  | s :: rest, db =>
      match s.apply db with
      | Except.ok db1 => applySteps rest db1
      | Except.error e => (db, some e)

/-- Modelled from the spec: building the `RunResult` from the final state via
the read-only verification queries, with the first error (if any). -/
def mkRunResult (db : DBState) (err : Option StorageError) : RunResult :=
  { stats := getStats db, error := err }

/-- Modelled from the spec: `run(steps, store)` — an empty list or duplicate
names is a `ConfigurationError` before any step executes; otherwise run the
steps and report. -/
def run (steps : List MigrationStep) (db : DBState) :
    Except String (DBState × RunResult) :=
  if steps.isEmpty then Except.error "ConfigurationError: empty step list"
  else if (steps.map (fun s => s.name)).Nodup then
    let p := applySteps steps db
    Except.ok (p.1, mkRunResult p.1 p.2)
  else Except.error "ConfigurationError: duplicate step names"

/-! ## Further definitions: observations and concrete states -/

/-- The rows of `app_info` holding a given key — the row set a
`SELECT ... FROM app_info WHERE key = ?` observes. -/
def appInfoKeyRows (db : DBState) (k : String) : List AppInfoRow :=
  db.appInfo.filter (fun r => r.key == k)

/-- The number of rows the seeding step inserts. -/
def todosInserted (now : Nat) (db : DBState) : Nat :=
  (seedTodos now db).todos.length - db.todos.length

/-- A store whose `todos` table already holds one row, used to exercise the
non-empty branches. -/
def demoTodosDB : DBState :=
  { emptyDB with
    tables := ["todos"],
    todos := [{ id := 1, title := "existing", description := none,
                is_completed := 0, created_at := 0, updated_at := none }],
    todosSeq := 1 }

/-- A store that already carries the trigger, used to exercise the guard. -/
def demoTriggerDB : DBState :=
  { emptyDB with triggers := ["todos_set_updated_at"] }

/-- A store with a pre-existing `app_info` row under an upserted key. -/
def demoAppInfoDB : DBState :=
  { emptyDB with
    tables := ["app_info"],
    appInfo := [{ id := 1, key := "project_name", value := some "old",
                  created_at := 0 }],
    appInfoSeq := 1 }

/-- The spec's scenario step list, packaged for the runner: step 1. -/
def stepCreateAppInfo : MigrationStep :=
  { name := "create_app_info", kind := StepKind.schema,
    apply := fun d => Except.ok (createAppInfoTable d) }

/-- The spec's scenario step list: step 2. -/
def stepCreateUsers : MigrationStep :=
  { name := "create_users", kind := StepKind.schema,
    apply := fun d => Except.ok (createUsersTable d) }

/-- A third step that fails with a `StorageError`, standing for the
todos-table step hitting an I/O failure. -/
def stepFailTodos : MigrationStep :=
  { name := "create_todos", kind := StepKind.schema,
    apply := fun _ => Except.error "disk I/O error" }

/-- The spec's scenario step list: step 4, the `app_info` upserts. -/
def stepUpserts : MigrationStep :=
  { name := "upsert_app_info", kind := StepKind.seed,
    apply := fun d => Except.ok
      (upsertAppInfo 0 "description" ""
        (upsertAppInfo 0 "author" "John Doe"
          (upsertAppInfo 0 "version" "0.1.0"
            (upsertAppInfo 0 "project_name" "database" d)))) }

/-- The spec's scenario step list: step 5, the todos seeding. -/
def stepSeed : MigrationStep :=
  { name := "seed_todos", kind := StepKind.seed,
    apply := fun d => Except.ok (seedTodos 0 d) }

/-- The state the two successful leading steps reach from a fresh store. -/
def demoDb1 : DBState := createUsersTable (createAppInfoTable emptyDB)

/-- The state a run of init_db.py leaves behind on a fresh store, with the
run's timestamp abstract. -/
def freshRun (t : Nat) : DBState :=
  { tables := ["app_info", "users", "todos"],
    indexes := ["idx_todos_is_completed"],
    triggers := ["todos_set_updated_at"],
    appInfo :=
      [{ id := 1, key := "project_name", value := some "database", created_at := t },
       { id := 2, key := "version", value := some "0.1.0", created_at := t },
       { id := 3, key := "author", value := some "John Doe", created_at := t },
       { id := 4, key := "description", value := some "", created_at := t }],
    users := [],
    todos :=
      [{ id := 1, title := "Set up project",
         description := some "Initialize repository and basic structure",
         is_completed := 1, created_at := t, updated_at := none },
       { id := 2, title := "Build backend",
         description := some "Implement FastAPI endpoints for todos",
         is_completed := 0, created_at := t, updated_at := none },
       { id := 3, title := "Create frontend",
         description := some "Build React UI for managing tasks",
         is_completed := 0, created_at := t, updated_at := none },
       { id := 4, title := "Write tests",
         description := some "Add unit/integration tests",
         is_completed := 0, created_at := t, updated_at := none }],
    appInfoSeq := 4, usersSeq := 0, todosSeq := 4 }

/-- The state a second run of init_db.py leaves behind: the catalog and the
todos are untouched, the four `app_info` rows are replaced (fresh ids 5-8 and
the second run's timestamp). -/
def secondRun (t1 t2 : Nat) : DBState :=
  { tables := ["app_info", "users", "todos"],
    indexes := ["idx_todos_is_completed"],
    triggers := ["todos_set_updated_at"],
    appInfo :=
      [{ id := 5, key := "project_name", value := some "database", created_at := t2 },
       { id := 6, key := "version", value := some "0.1.0", created_at := t2 },
       { id := 7, key := "author", value := some "John Doe", created_at := t2 },
       { id := 8, key := "description", value := some "", created_at := t2 }],
    users := [],
    todos := (freshRun t1).todos,
    appInfoSeq := 8, usersSeq := 0, todosSeq := 4 }

/-! ## Helper lemmas -/

theorem createAppInfoTable_todos (db : DBState) :
    (createAppInfoTable db).todos = db.todos := by
  unfold createAppInfoTable; split <;> rfl

theorem createUsersTable_todos (db : DBState) :
    (createUsersTable db).todos = db.todos := by
  unfold createUsersTable; split <;> rfl

theorem createTodosTable_todos (db : DBState) :
    (createTodosTable db).todos = db.todos := by
  unfold createTodosTable; split <;> rfl

theorem createTodosIndex_todos (db : DBState) :
    (createTodosIndex db).todos = db.todos := by
  unfold createTodosIndex; split <;> rfl

theorem createTriggerStep_todos (db : DBState) :
    (createTriggerStep db).todos = db.todos := by
  unfold createTriggerStep; split <;> rfl

theorem upsertAppInfo_todos (now : Nat) (k v : String) (db : DBState) :
    (upsertAppInfo now k v db).todos = db.todos := rfl

theorem seedTodos_of_nonempty (now : Nat) (db : DBState) (h : db.todos ≠ []) :
    seedTodos now db = db := by
  unfold seedTodos
  rw [if_neg]
  simpa [List.length_eq_zero] using h

theorem createAppInfoTable_appInfo (db : DBState) :
    (createAppInfoTable db).appInfo = db.appInfo := by
  unfold createAppInfoTable; split <;> rfl

theorem createUsersTable_appInfo (db : DBState) :
    (createUsersTable db).appInfo = db.appInfo := by
  unfold createUsersTable; split <;> rfl

theorem createTodosTable_appInfo (db : DBState) :
    (createTodosTable db).appInfo = db.appInfo := by
  unfold createTodosTable; split <;> rfl

theorem createTodosIndex_appInfo (db : DBState) :
    (createTodosIndex db).appInfo = db.appInfo := by
  unfold createTodosIndex; split <;> rfl

theorem createTriggerStep_appInfo (db : DBState) :
    (createTriggerStep db).appInfo = db.appInfo := by
  unfold createTriggerStep; split <;> rfl

theorem createAppInfoTable_appInfoSeq (db : DBState) :
    (createAppInfoTable db).appInfoSeq = db.appInfoSeq := by
  unfold createAppInfoTable; split <;> rfl

theorem createUsersTable_appInfoSeq (db : DBState) :
    (createUsersTable db).appInfoSeq = db.appInfoSeq := by
  unfold createUsersTable; split <;> rfl

theorem createTodosTable_appInfoSeq (db : DBState) :
    (createTodosTable db).appInfoSeq = db.appInfoSeq := by
  unfold createTodosTable; split <;> rfl

theorem createTodosIndex_appInfoSeq (db : DBState) :
    (createTodosIndex db).appInfoSeq = db.appInfoSeq := by
  unfold createTodosIndex; split <;> rfl

theorem createTriggerStep_appInfoSeq (db : DBState) :
    (createTriggerStep db).appInfoSeq = db.appInfoSeq := by
  unfold createTriggerStep; split <;> rfl

theorem seedTodos_appInfo (now : Nat) (db : DBState) :
    (seedTodos now db).appInfo = db.appInfo := by
  unfold seedTodos; split <;> rfl

theorem initDB_emptyDB (t : Nat) : initDB t emptyDB = freshRun t := by
  simp [initDB, createAppInfoTable, createUsersTable, createTodosTable,
    createTodosIndex, createTriggerStep, trigger_exists, upsertAppInfo,
    seedTodos, insertTodo, sample_todos, emptyDB, freshRun, List.filter]

theorem initDB_freshRun (t1 t2 : Nat) :
    initDB t2 (freshRun t1) = secondRun t1 t2 := by
  simp [initDB, createAppInfoTable, createUsersTable, createTodosTable,
    createTodosIndex, createTriggerStep, trigger_exists, upsertAppInfo,
    seedTodos, insertTodo, sample_todos, freshRun, secondRun, List.filter]

theorem upsertAppInfo_appInfoSeq (now : Nat) (k v : String) (db : DBState) :
    (upsertAppInfo now k v db).appInfoSeq = db.appInfoSeq + 1 := rfl

theorem appInfoKeyRows_seed (now : Nat) (db : DBState) (k : String) :
    appInfoKeyRows (seedTodos now db) k = appInfoKeyRows db k := by
  unfold appInfoKeyRows
  rw [seedTodos_appInfo]

theorem filter_key_erase_self (l : List AppInfoRow) (k : String) :
    (l.filter (fun r => r.key != k)).filter (fun r => r.key == k) = [] := by
  induction l with
  | nil => rfl
  | cons a t ih =>
      by_cases h : a.key = k <;> simp [List.filter_cons, h, ih]

theorem filter_key_erase_other (l : List AppInfoRow) (k k' : String)
    (h : k' ≠ k) :
    (l.filter (fun r => r.key != k)).filter (fun r => r.key == k') =
      l.filter (fun r => r.key == k') := by
  induction l with
  | nil => rfl
  | cons a t ih =>
      by_cases h1 : a.key = k'
      · have h2 : a.key ≠ k := by rw [h1]; exact h
        simp [List.filter_cons, h1, h2, h, ih]
      · by_cases h2 : a.key = k <;>
          simp [List.filter_cons, h1, h2, ih, Ne.symm h]

theorem appInfoKeyRows_upsert_self (now : Nat) (k v : String) (db : DBState) :
    appInfoKeyRows (upsertAppInfo now k v db) k =
      [{ id := db.appInfoSeq + 1, key := k, value := some v, created_at := now }] := by
  unfold appInfoKeyRows upsertAppInfo
  simp [List.filter_append, filter_key_erase_self]

theorem appInfoKeyRows_upsert_other (now : Nat) (k v k' : String)
    (h : k' ≠ k) (db : DBState) :
    appInfoKeyRows (upsertAppInfo now k v db) k' = appInfoKeyRows db k' := by
  have h2 : k ≠ k' := Ne.symm h
  unfold appInfoKeyRows upsertAppInfo
  simp [List.filter_append, filter_key_erase_other _ _ _ h, h2]

theorem applySteps_append (l1 l2 : List MigrationStep) (db : DBState) :
    applySteps (l1 ++ l2) db =
      match applySteps l1 db with
      | (d, none) => applySteps l2 d
      | (d, some e) => (d, some e) := by
  induction l1 generalizing db with
  | nil => rfl
  | cons s rest ih =>
      simp only [List.cons_append, applySteps]
      cases s.apply db with
      | ok d1 => exact ih d1
      | error e => rfl

/-! ## Claim theorems -/

/-- Claim C1: running the full initialization step sequence twice in
succession against a fresh store produces a final database state identical to
running it once — the same tables, indexes and triggers, and the same row
counts in every table — for any pair of run timestamps. -/
theorem claim_C1_init_idempotent (t1 t2 : Nat) :
    dbObs (initDB t2 (initDB t1 emptyDB)) = dbObs (initDB t1 emptyDB) := by
  rw [initDB_emptyDB, initDB_freshRun]
  rfl

/-- Claim C3: the seeding step inserts the 4 sample rows exactly when the
todos table holds zero rows at the moment the step runs; on a non-empty
table it inserts nothing and leaves the store untouched. -/
theorem claim_C3_seed_guard (now : Nat) (db : DBState) :
    (todosInserted now db = 4 ↔ db.todos = []) ∧
    (db.todos ≠ [] → seedTodos now db = db) := by
  by_cases h : db.todos = []
  · refine ⟨⟨fun _ => h, fun _ => ?_⟩, fun hne => absurd h hne⟩
    simp [todosInserted, seedTodos, h, sample_todos, insertTodo]
  · have hs : seedTodos now db = db := seedTodos_of_nonempty now db h
    refine ⟨⟨fun h4 => ?_, fun he => absurd he h⟩, fun _ => hs⟩
    simp only [todosInserted, hs] at h4
    exfalso
    omega

/-- Witness for C3 at a store whose todos table already holds a row: the
seeding step inserts nothing. -/
theorem claim_C3_seed_guard_witness :
    seedTodos 5 demoTodosDB = demoTodosDB :=
  (claim_C3_seed_guard 5 demoTodosDB).2 (by decide)

/-- Claim C4: on a fresh store the reported statistics are exactly 3 user
tables, 4 app_info records and 4 todos of which 1 is completed (hence 3
pending), for any run timestamp. -/
theorem claim_C4_fresh_stats (now : Nat) :
    getStats (initDB now emptyDB) =
      { table_count := 3, record_count := 4, todo_total := 4,
        todo_completed := 1 } ∧
    (getStats (initDB now emptyDB)).todo_total -
        (getStats (initDB now emptyDB)).todo_completed = 3 := by
  rw [initDB_emptyDB]
  exact ⟨rfl, rfl⟩

/-- Claim C6: after the initialization script has seeded a fresh store,
running `SELECT title FROM todos WHERE is_completed=1` through the ad-hoc
shell against that store prints exactly the single line `Set up project`. -/
theorem claim_C6_shell_completed_query (now : Nat) (d : Bool) :
    (shellMain { dirExists := d, dbFile := some (initDB now emptyDB) }
        Stmt.selectTitleCompleted).2.stdoutLines = ["Set up project"] := by
  rw [initDB_emptyDB]
  rfl

/-- Claim C7: the trigger is created only when the catalog query finds no
trigger of that name, so the guarded step never raises the
`trigger already exists` error that the raw CREATE TRIGGER statement raises
on a store already carrying the trigger (the catalog-check strategy, unlike
the IF NOT EXISTS strategy of the table and index steps). -/
theorem claim_C7_trigger_catalog_guard (db : DBState) :
    triggerStepE db = Except.ok (createTriggerStep db) ∧
    (trigger_exists db = true →
      triggerStepE db = Except.ok db ∧
      createTriggerRaw db =
        Except.error "trigger todos_set_updated_at already exists") ∧
    (trigger_exists db = false → triggerStepE db = createTriggerRaw db) := by
  by_cases h : "todos_set_updated_at" ∈ db.triggers <;>
    simp [triggerStepE, createTriggerStep, createTriggerRaw, trigger_exists, h]

/-- Witness for C7 at a store already carrying the trigger: the guarded step
succeeds without change while the raw statement errors. -/
theorem claim_C7_trigger_catalog_guard_witness :
    triggerStepE demoTriggerDB = Except.ok demoTriggerDB ∧
    createTriggerRaw demoTriggerDB =
      Except.error "trigger todos_set_updated_at already exists" :=
  (claim_C7_trigger_catalog_guard demoTriggerDB).2.1 (by decide)

/-- Claim C9: running the initialization against a store whose todos table is
non-empty leaves the todos rows exactly as they were — no insert, update or
delete. -/
theorem claim_C9_todos_frame (now : Nat) (db : DBState) (h : db.todos ≠ []) :
    (initDB now db).todos = db.todos := by
  have hX : (upsertAppInfo now "description" ""
      (upsertAppInfo now "author" "John Doe"
        (upsertAppInfo now "version" "0.1.0"
          (upsertAppInfo now "project_name" "database"
            (createTriggerStep
              (createTodosIndex
                (createTodosTable
                  (createUsersTable
                    (createAppInfoTable db))))))))).todos = db.todos := by
    rw [upsertAppInfo_todos, upsertAppInfo_todos, upsertAppInfo_todos,
      upsertAppInfo_todos, createTriggerStep_todos, createTodosIndex_todos,
      createTodosTable_todos, createUsersTable_todos, createAppInfoTable_todos]
  unfold initDB
  rw [seedTodos_of_nonempty _ _ (by rw [hX]; exact h), hX]

/-- Witness for C9 at a store with one pre-existing todo row. -/
theorem claim_C9_todos_frame_witness :
    (initDB 5 demoTodosDB).todos = demoTodosDB.todos :=
  claim_C9_todos_frame 5 demoTodosDB (by decide)

/-- Claim C10: when the database file is missing the shell does not fail —
it resolves the default path `/data/todos.db`, creates the parent directory,
creates a fresh empty database file, and its outcome on the given statement
equals the outcome against a present empty database. -/
theorem claim_C10_missing_db_file (stmt : Stmt) :
    resolveDbFile none = "/data/todos.db" ∧
    (shellMain { dirExists := false, dbFile := none } stmt).1.dirExists = true ∧
    (shellMain { dirExists := false, dbFile := none } stmt).1.dbFile.isSome
        = true ∧
    (shellMain { dirExists := false, dbFile := none } stmt).2 =
      (shellMain { dirExists := true, dbFile := some emptyDB } stmt).2 := by
  cases stmt <;> exact ⟨rfl, rfl, rfl, rfl⟩

/-- Claim C5: for every shell invocation with a single statement, a
successful execution prints each result row as tab-separated column values
and exits 0, while a storage-engine error yields a diagnostic message on
stderr and a non-zero exit status. -/
theorem claim_C5_shell_contract (fs : ShellFS) (stmt : Stmt) :
    (∀ db1 rows,
      execStmt stmt (fs.dbFile.getD emptyDB) = Except.ok (db1, rows) →
      (shellMain fs stmt).2.stdoutLines =
          rows.map (fun row => String.intercalate "\t" row) ∧
      (shellMain fs stmt).2.exitCode = 0 ∧
      (shellMain fs stmt).2.stderrMsg = none) ∧
    (∀ e, execStmt stmt (fs.dbFile.getD emptyDB) = Except.error e →
      (shellMain fs stmt).2.exitCode ≠ 0 ∧
      (shellMain fs stmt).2.stderrMsg = some ("SQLite error: " ++ e)) := by
  constructor
  · intro db1 rows h
    simp [shellMain, h]
  · intro e h
    simp [shellMain, h]

/-- Witness for C5: on an empty store the SELECT hits the engine's
`no such table` error, and the shell exits 1 with the diagnostic. -/
theorem claim_C5_shell_contract_witness :
    execStmt Stmt.selectTitleCompleted
        ((ShellFS.mk true (some emptyDB)).dbFile.getD emptyDB) =
      Except.error "no such table: todos" ∧
    (shellMain (ShellFS.mk true (some emptyDB))
        Stmt.selectTitleCompleted).2.exitCode ≠ 0 ∧
    (shellMain (ShellFS.mk true (some emptyDB))
        Stmt.selectTitleCompleted).2.stderrMsg =
      some ("SQLite error: " ++ "no such table: todos") :=
  ⟨rfl,
   (claim_C5_shell_contract (ShellFS.mk true (some emptyDB))
      Stmt.selectTitleCompleted).2 "no such table: todos" rfl⟩

/-- Claim C2: when an intermediate step raises a StorageError, the runner
keeps the effects of all previously completed steps, never executes the
remaining steps (the outcome is the same for any tail), and returns a
RunResult whose error field is set. -/
theorem claim_C2_runner_partial_failure
    (pre : List MigrationStep) (s : MigrationStep)
    (post post' : List MigrationStep) (db db1 : DBState) (e : StorageError)
    (hnodup : ((pre ++ s :: post).map (fun st => st.name)).Nodup)
    (hpre : applySteps pre db = (db1, none))
    (hfail : s.apply db1 = Except.error e) :
    run (pre ++ s :: post) db =
      Except.ok (db1, mkRunResult db1 (some e)) ∧
    (mkRunResult db1 (some e)).error = some e ∧
    (((pre ++ s :: post').map (fun st => st.name)).Nodup →
      run (pre ++ s :: post') db =
        Except.ok (db1, mkRunResult db1 (some e))) := by
  have hrun : ∀ l : List MigrationStep,
      applySteps (pre ++ s :: l) db = (db1, some e) := by
    intro l
    rw [applySteps_append, hpre]
    simp [applySteps, hfail]
  have hne : ∀ l : List MigrationStep,
      (pre ++ s :: l).isEmpty = false := by
    intro l; cases pre <;> rfl
  refine ⟨?_, rfl, fun hnodup2 => ?_⟩
  · simp only [List.map_append, List.map_cons] at hnodup
    simp [run, hne post, hnodup, hrun post]
  · simp only [List.map_append, List.map_cons] at hnodup2
    simp [run, hne post', hnodup2, hrun post']

/-- Witness for C2: the spec's 5-step scenario with step 3 of 5 failing on a
disk I/O error — steps 1-2 persist, steps 4-5 never run, the error is set. -/
theorem claim_C2_runner_partial_failure_witness :
    (([stepCreateAppInfo, stepCreateUsers] ++
        stepFailTodos :: [stepUpserts, stepSeed]).map
          (fun st => st.name)).Nodup ∧
    applySteps [stepCreateAppInfo, stepCreateUsers] emptyDB =
      (demoDb1, none) ∧
    stepFailTodos.apply demoDb1 = Except.error "disk I/O error" ∧
    run ([stepCreateAppInfo, stepCreateUsers] ++
        stepFailTodos :: [stepUpserts, stepSeed]) emptyDB =
      Except.ok (demoDb1, mkRunResult demoDb1 (some "disk I/O error")) := by
  have h1 : (([stepCreateAppInfo, stepCreateUsers] ++
      stepFailTodos :: [stepUpserts, stepSeed]).map
        (fun st => st.name)).Nodup := by
    simp [stepCreateAppInfo, stepCreateUsers, stepFailTodos, stepUpserts,
      stepSeed]
  have h2 : applySteps [stepCreateAppInfo, stepCreateUsers] emptyDB =
      (demoDb1, none) := rfl
  have h3 : stepFailTodos.apply demoDb1 =
      Except.error "disk I/O error" := rfl
  exact ⟨h1, h2, h3,
    (claim_C2_runner_partial_failure [stepCreateAppInfo, stepCreateUsers]
      stepFailTodos [stepUpserts, stepSeed] [] emptyDB demoDb1
      "disk I/O error" h1 h2 h3).1⟩

/-- Claim C8: every run of the initialization, whatever the prior store
contents, ends with the four upserted `app_info` keys mapped to exactly one
row each holding the fixed value, carrying the run's timestamp as its
`created_at` and a fresh id never used by any pre-existing row. -/
theorem claim_C8_app_info_overwrite (now : Nat) (db : DBState)
    (hwf : ∀ r ∈ db.appInfo, r.id ≤ db.appInfoSeq) :
    appInfoKeyRows (initDB now db) "project_name" =
      [{ id := db.appInfoSeq + 1, key := "project_name",
         value := some "database", created_at := now }] ∧
    appInfoKeyRows (initDB now db) "version" =
      [{ id := db.appInfoSeq + 2, key := "version",
         value := some "0.1.0", created_at := now }] ∧
    appInfoKeyRows (initDB now db) "author" =
      [{ id := db.appInfoSeq + 3, key := "author",
         value := some "John Doe", created_at := now }] ∧
    appInfoKeyRows (initDB now db) "description" =
      [{ id := db.appInfoSeq + 4, key := "description",
         value := some "", created_at := now }] ∧
    (∀ r ∈ db.appInfo,
      r.id ≠ db.appInfoSeq + 1 ∧ r.id ≠ db.appInfoSeq + 2 ∧
      r.id ≠ db.appInfoSeq + 3 ∧ r.id ≠ db.appInfoSeq + 4) := by
  have hSa : (createTriggerStep (createTodosIndex (createTodosTable
      (createUsersTable (createAppInfoTable db))))).appInfo = db.appInfo := by
    rw [createTriggerStep_appInfo, createTodosIndex_appInfo,
      createTodosTable_appInfo, createUsersTable_appInfo,
      createAppInfoTable_appInfo]
  have hSs : (createTriggerStep (createTodosIndex (createTodosTable
      (createUsersTable (createAppInfoTable db))))).appInfoSeq
        = db.appInfoSeq := by
    rw [createTriggerStep_appInfoSeq, createTodosIndex_appInfoSeq,
      createTodosTable_appInfoSeq, createUsersTable_appInfoSeq,
      createAppInfoTable_appInfoSeq]
  unfold initDB
  refine ⟨?_, ?_, ?_, ?_, ?_⟩
  · rw [appInfoKeyRows_seed,
      appInfoKeyRows_upsert_other _ _ _ _ (by decide),
      appInfoKeyRows_upsert_other _ _ _ _ (by decide),
      appInfoKeyRows_upsert_other _ _ _ _ (by decide),
      appInfoKeyRows_upsert_self, hSs]
  · rw [appInfoKeyRows_seed,
      appInfoKeyRows_upsert_other _ _ _ _ (by decide),
      appInfoKeyRows_upsert_other _ _ _ _ (by decide),
      appInfoKeyRows_upsert_self, upsertAppInfo_appInfoSeq, hSs]
  · rw [appInfoKeyRows_seed,
      appInfoKeyRows_upsert_other _ _ _ _ (by decide),
      appInfoKeyRows_upsert_self, upsertAppInfo_appInfoSeq,
      upsertAppInfo_appInfoSeq, hSs]
  · rw [appInfoKeyRows_seed, appInfoKeyRows_upsert_self,
      upsertAppInfo_appInfoSeq, upsertAppInfo_appInfoSeq,
      upsertAppInfo_appInfoSeq, hSs]
  · intro r hr
    have := hwf r hr
    omega

/-- Witness for C8 at a store holding an old `project_name` row: the run
replaces it with the fixed value under a fresh id and timestamp. -/
theorem claim_C8_app_info_overwrite_witness :
    appInfoKeyRows (initDB 9 demoAppInfoDB) "project_name" =
      [{ id := demoAppInfoDB.appInfoSeq + 1, key := "project_name",
         value := some "database", created_at := 9 }] ∧
    (∀ r ∈ demoAppInfoDB.appInfo,
      r.id ≠ demoAppInfoDB.appInfoSeq + 1 ∧
      r.id ≠ demoAppInfoDB.appInfoSeq + 2 ∧
      r.id ≠ demoAppInfoDB.appInfoSeq + 3 ∧
      r.id ≠ demoAppInfoDB.appInfoSeq + 4) := by
  have h := claim_C8_app_info_overwrite 9 demoAppInfoDB (by decide)
  exact ⟨h.1, h.2.2.2.2⟩
